import Mathlib

/-!
Shallow embedding of the tunnel dispatch core of `src-tauri/src/client/client_api.rs`
(`WsClientApi::connect`), together with the small collaborator values it consumes
from the `wstunnel` crate (`LocalProtocol`, `to_host_port`, `TransportScheme`,
`WsClientConfig`).  Rust `Duration` is modelled as whole seconds plus nanoseconds,
`PathBuf` and header names/values as strings, and `tokio::spawn`ed tasks as data
describing what was spawned.
-/

namespace Wst

/-- Collaborator model (std): `std::time::Duration`, seconds plus nanoseconds. -/
structure Duration where
  secs : Nat
  nanos : Nat
deriving DecidableEq, Repr

/-- Collaborator model (std): `Duration::as_secs`, the whole-second count. -/
def Duration.as_secs (d : Duration) : Nat := d.secs

/-- Collaborator model (url crate): `url::Host` — a domain name or an IP address. -/
inductive Host where
  | Domain (name : String)
  | Ipv4 (addr : String)
  | Ipv6 (addr : String)
deriving DecidableEq, Repr

/-- Collaborator model (url crate): the `Display` rendering of a `Host`
(IPv6 addresses are bracketed). -/
def Host.render : Host → String
  | .Domain name => name
  | .Ipv4 addr => addr
  | .Ipv6 addr => "[" ++ addr ++ "]"

/-- Collaborator model (std): a socket address, its IP kept abstract as a string
together with its v4/v6 tag. -/
structure SocketAddr where
  is_ipv4 : Bool
  ip : String
  port : Nat
deriving DecidableEq, Repr

/-- Collaborator model (wstunnel crate): `to_host_port(SocketAddr) -> (Host, u16)`,
which tags the IP with its family and keeps the port. -/
def to_host_port (addr : SocketAddr) : Host × Nat :=
  (if addr.is_ipv4 then Host.Ipv4 addr.ip else Host.Ipv6 addr.ip, addr.port)

/-- Collaborator model (wstunnel crate): SOCKS5 / HTTP-proxy credentials. -/
abbrev Credentials := String × String

/-- Collaborator model (wstunnel crate): the `LocalProtocol` tagged union, one
variant per tunnel protocol, with its per-variant payload fields. -/
inductive LocalProtocol where
  | Tcp (proxy_protocol : Bool)
  | Udp (timeout : Option Duration)
  | Stdio (proxy_protocol : Bool)
  | Socks5 (timeout : Option Duration) (credentials : Option Credentials)
  | TProxyTcp
  | TProxyUdp (timeout : Option Duration)
  | HttpProxy (timeout : Option Duration) (credentials : Option Credentials)
      (proxy_protocol : Bool)
  | Unix (path : String) (proxy_protocol : Bool)
  | ReverseTcp
  | ReverseUdp (timeout : Option Duration)
  | ReverseSocks5 (timeout : Option Duration) (credentials : Option Credentials)
  | ReverseHttpProxy (timeout : Option Duration) (credentials : Option Credentials)
  | ReverseUnix (path : String)
deriving DecidableEq, Repr

/-- Holds (as `true`) exactly on the five reverse (remote-initiated) protocol variants. -/
def LocalProtocol.is_reverse : LocalProtocol → Bool
  | .ReverseTcp => true
  | .ReverseUdp _ => true
  | .ReverseSocks5 _ _ => true
  | .ReverseHttpProxy _ _ => true
  | .ReverseUnix _ => true
  | _ => false

/-- One endpoint descriptor (`LocalToRemote` in `client_api.rs`): protocol,
local socket address, and remote `(Host, u16)` target. -/
structure LocalToRemote where
  local_protocol : LocalProtocol
  locl : SocketAddr
  remote : Host × Nat
deriving DecidableEq, Repr

/-- Collaborator model (wstunnel crate): `RemoteAddr` — the remote-side address a
reverse tunnel is requested for, tagged with its protocol. -/
structure RemoteAddr where
  protocol : LocalProtocol
  host : Host
  port : Nat
deriving DecidableEq, Repr

/-- Collaborator model (wstunnel crate): `TransportScheme`. -/
inductive TransportScheme where
  | Ws
  | Wss
  | Http
  | Https
deriving DecidableEq, Repr

/-- Collaborator model (wstunnel crate): `TransportScheme::from_str` on the
URL scheme string. -/
def TransportScheme.from_str : String → Option TransportScheme
  | "ws" => some .Ws
  | "wss" => some .Wss
  | "http" => some .Http
  | "https" => some .Https
  | _ => none

/-- Collaborator model (wstunnel crate): the value returned by `tls::tls_connector`,
kept abstract as the record of the arguments it was called with (certificate and
key are kept as their file paths). -/
structure TlsConnector where
  tls_verify_certificate : Bool
  alpn_of_scheme : TransportScheme
  enable_sni : Bool
  tls_certificate : Option String
  tls_key : Option String
deriving DecidableEq, Repr

/-- Collaborator model (wstunnel crate): `TlsClientConfig` as filled in by
`connect` (lines 63-79 of `client_api.rs`). -/
structure TlsClientConfig where
  tls_connector : TlsConnector
  tls_sni_override : Option String
  tls_verify_certificate : Bool
  tls_sni_disabled : Bool
  tls_certificate_path : Option String
  tls_key_path : Option String
deriving DecidableEq, Repr

/-- Collaborator model (wstunnel crate): `TransportAddr`. -/
structure TransportAddr where
  scheme : TransportScheme
  host : Host
  port : Nat
  tls : Option TlsClientConfig
deriving DecidableEq, Repr

/-- Collaborator model (url crate): a parsed URL, reduced to the pieces
`connect` reads — scheme, host and explicit port. -/
structure Url where
  scheme : String
  host : Option Host
  port : Option Nat
deriving DecidableEq, Repr

/-- Collaborator model (url crate): `Url::port_or_known_default` — the explicit
port, or the scheme's well-known default. -/
def Url.port_or_known_default (u : Url) : Option Nat :=
  u.port.or (match u.scheme with
    | "http" => some 80
    | "ws" => some 80
    | "https" => some 443
    | "wss" => some 443
    | _ => none)

/-- The client arguments struct (`Client` in `client_api.rs`), reduced to the
fields read by the parts of `connect` that the claims concern; `Duration`
options keep their source names, paths are strings.  The source field
`http_upgrade_path_prefix` is carried as `http_upgrade_path_pfx`. -/
structure Client where
  local_to_remote : List LocalToRemote
  remote_to_local : List LocalToRemote
  socket_so_mark : Option Nat
  tls_sni_override : Option String
  tls_sni_disable : Bool
  tls_verify_certificate : Bool
  http_upgrade_path_pfx : String
  http_upgrade_credentials : Option String
  websocket_ping_frequency_sec : Option Duration
  websocket_mask_frame : Bool
  http_headers : List (String × String)
  http_headers_file : Option String
  remote_addr : Url
  tls_certificate : Option String
  tls_private_key : Option String
deriving DecidableEq, Repr

/-- Collaborator model (http crate): the `HOST` header name constant; parsed
header names are lowercase, so comparison is plain string equality. -/
def HOST : String := "host"

/-- Collaborator model (wstunnel crate): `WsClientConfig`, reduced to the fields
filled in at lines 104-136 of `client_api.rs` (DNS-resolver and HTTP-proxy
construction are external collaborators and are not carried). -/
structure WsClientConfig where
  remote_addr : TransportAddr
  socket_so_mark : Option Nat
  http_upgrade_path_pfx : String
  http_upgrade_credentials : Option String
  http_headers : List (String × String)
  http_headers_file : Option String
  http_header_host : String
  timeout_connect : Duration
  websocket_ping_frequency : Option Duration
  websocket_mask_frame : Bool
deriving DecidableEq, Repr

/-- The TLS branch of `connect` (lines 61-80): `Ws`/`Http` carry no TLS
configuration; `Wss`/`Https` build a `TlsClientConfig` whose connector is
created with SNI enabled exactly when `tls_sni_disable` is not set. -/
def mk_tls (args : Client) : TransportScheme → Option TlsClientConfig
  | .Ws => none
  | .Http => none
  | .Wss => some
      { tls_connector :=
          { tls_verify_certificate := args.tls_verify_certificate
            alpn_of_scheme := .Wss
            enable_sni := !args.tls_sni_disable
            tls_certificate := args.tls_certificate
            tls_key := args.tls_private_key }
        tls_sni_override := args.tls_sni_override
        tls_verify_certificate := args.tls_verify_certificate
        tls_sni_disabled := args.tls_sni_disable
        tls_certificate_path := args.tls_certificate
        tls_key_path := args.tls_private_key }
  | .Https => some
      { tls_connector :=
          { tls_verify_certificate := args.tls_verify_certificate
            alpn_of_scheme := .Https
            enable_sni := !args.tls_sni_disable
            tls_certificate := args.tls_certificate
            tls_key := args.tls_private_key }
        tls_sni_override := args.tls_sni_override
        tls_verify_certificate := args.tls_verify_certificate
        tls_sni_disabled := args.tls_sni_disable
        tls_certificate_path := args.tls_certificate
        tls_key_path := args.tls_private_key }

/-- The construction of `WsClientConfig` in `connect` (lines 59-136): scheme
parsed by `TransportScheme::from_str` (an `expect` in the source, modelled as
the `Option` bind), TLS from `mk_tls`, Host header taken from the first
explicit `http_headers` entry named `HOST` or else derived from the remote
URL, remaining headers filtered of `HOST`, a fixed 10s connect timeout, and
the ping frequency `args.websocket_ping_frequency_sec.or(Some(30s))`
filtered to positive whole-second counts. -/
def mk_client_config (args : Client) : Option WsClientConfig := do
  let transport_scheme ← TransportScheme.from_str args.remote_addr.scheme
  let tls := mk_tls args transport_scheme
  let rhost ← args.remote_addr.host
  let host_header :=
    match args.http_headers.find? (fun kv => kv.1 == HOST) with
    | some kv => kv.2
    | none =>
      match args.remote_addr.port_or_known_default with
      | none => rhost.render
      | some 80 => rhost.render
      | some 443 => rhost.render
      | some port => rhost.render ++ ":" ++ toString port
  let rport ← args.remote_addr.port_or_known_default
  some
    { remote_addr :=
        { scheme := transport_scheme, host := rhost, port := rport, tls := tls }
      socket_so_mark := args.socket_so_mark
      http_upgrade_path_pfx := args.http_upgrade_path_pfx
      http_upgrade_credentials := args.http_upgrade_credentials
      http_headers := args.http_headers.filter (fun kv => kv.1 != HOST)
      http_headers_file := args.http_headers_file
      http_header_host := host_header
      timeout_connect := { secs := 10, nanos := 0 }
      websocket_ping_frequency :=
        (args.websocket_ping_frequency_sec.or
            (some { secs := 30, nanos := 0 })).filter
          (fun d => d.as_secs > 0)
      websocket_mask_frame := args.websocket_mask_frame }

/-- Collaborator model (wstunnel crate): an outbound connector, kept abstract as
the record of the constructor arguments (`TcpTunnelConnector::new`,
`UdpTunnelConnector::new`, `Socks5TunnelConnector::new`; the shared DNS
resolver argument is not carried). -/
inductive Connector where
  | TcpTunnelConnector (host : Host) (port : Nat) (so_mark : Option Nat)
      (timeout_connect : Duration)
  | UdpTunnelConnector (host : Host) (port : Nat) (so_mark : Option Nat)
      (timeout_connect : Duration)
  | Socks5TunnelConnector (so_mark : Option Nat) (timeout_connect : Duration)
deriving DecidableEq, Repr

/-- The (host, port) target a connector was aimed at; `none` for SOCKS5, whose
targets are chosen dynamically per request. -/
def connectorTarget : Connector → Option (Host × Nat)
  | .TcpTunnelConnector host port _ _ => some (host, port)
  | .UdpTunnelConnector host port _ _ => some (host, port)
  | .Socks5TunnelConnector _ _ => none

/-- What one arm of the remote-to-local dispatch `match` (lines 149-292) does:
spawn a task running `run_reverse_tunnel remote connector`, silently skip the
endpoint, or `panic!` with a message. -/
inductive ReverseAction where
  | spawn (remote : RemoteAddr) (connector : Connector)
  | skip
  | panic (msg : String)
deriving DecidableEq, Repr

/-- The remote-to-local dispatch arm for one endpoint (lines 149-292 of
`client_api.rs`), translated case by case from the `match` on
`tunnel.local_protocol`. -/
def dispatchReverse (cfg : WsClientConfig) (tunnel : LocalToRemote) : ReverseAction :=
  match tunnel.local_protocol with
  | .ReverseTcp =>
    let tcp_connector := Connector.TcpTunnelConnector tunnel.remote.1 tunnel.remote.2
      cfg.socket_so_mark cfg.timeout_connect
    let hp := to_host_port tunnel.locl
    .spawn { protocol := .ReverseTcp, host := hp.1, port := hp.2 } tcp_connector
  | .ReverseUdp timeout =>
    let hp := to_host_port tunnel.locl
    let remote : RemoteAddr := { protocol := .ReverseUdp timeout, host := hp.1, port := hp.2 }
    let udp_connector := Connector.UdpTunnelConnector remote.host remote.port
      cfg.socket_so_mark cfg.timeout_connect
    .spawn remote udp_connector
  | .ReverseSocks5 timeout credentials =>
    let hp := to_host_port tunnel.locl
    let remote : RemoteAddr :=
      { protocol := .ReverseSocks5 timeout credentials, host := hp.1, port := hp.2 }
    let socks_connector := Connector.Socks5TunnelConnector cfg.socket_so_mark
      cfg.timeout_connect
    .spawn remote socks_connector
  | .ReverseHttpProxy timeout credentials =>
    let hp := to_host_port tunnel.locl
    let remote : RemoteAddr :=
      { protocol := .ReverseHttpProxy timeout credentials, host := hp.1, port := hp.2 }
    let tcp_connector := Connector.TcpTunnelConnector remote.host remote.port
      cfg.socket_so_mark cfg.timeout_connect
    .spawn remote tcp_connector
  | .ReverseUnix path =>
    let tcp_connector := Connector.TcpTunnelConnector tunnel.remote.1 tunnel.remote.2
      cfg.socket_so_mark cfg.timeout_connect
    let hp := to_host_port tunnel.locl
    .spawn { protocol := .ReverseUnix path, host := hp.1, port := hp.2 } tcp_connector
  | .Stdio _ => .skip
  | .TProxyTcp => .skip
  | .TProxyUdp _ => .skip
  | .Tcp _ => .skip
  | .Udp _ => .skip
  | .Socks5 _ _ => .skip
  | .HttpProxy _ _ _ => .skip
  | .Unix _ _ => .panic "Invalid protocol for reverse tunnel"

/-- The build platform, deciding the `#[cfg(unix)]` / `#[cfg(target_os = "linux")]`
conditional arms of the local dispatch. -/
inductive Platform where
  | linux
  | macos
  | windows
deriving DecidableEq, Repr

/-- The `cfg(unix)` condition: holds on Linux and macOS. -/
def Platform.is_unix : Platform → Bool
  | .linux => true
  | .macos => true
  | .windows => false

/-- The `cfg(target_os = "linux")` condition: holds on Linux only. -/
def Platform.is_linux : Platform → Bool
  | .linux => true
  | _ => false

/-- Collaborator model (wstunnel crate): a constructed local listener, kept
abstract as the record of the constructor arguments of the corresponding
`*TunnelListener::new` / `new_tproxy_udp` / `new_stdio_listener` call. -/
inductive Listener where
  | TcpTunnelListener (locl : SocketAddr) (remote : Host × Nat) (proxy_protocol : Bool)
  | TproxyTcpTunnelListener (locl : SocketAddr) (proxy_protocol : Bool)
  | UnixTunnelListener (path : String) (remote : Host × Nat) (proxy_protocol : Bool)
  | TproxyUdpTunnelListener (locl : SocketAddr) (timeout : Option Duration)
  | UdpTunnelListener (locl : SocketAddr) (remote : Host × Nat) (timeout : Option Duration)
  | Socks5TunnelListener (locl : SocketAddr) (timeout : Option Duration)
      (credentials : Option Credentials)
  | HttpProxyTunnelListener (locl : SocketAddr) (timeout : Option Duration)
      (credentials : Option Credentials) (proxy_protocol : Bool)
  | StdioTunnelListener (remote : Host × Nat) (proxy_protocol : Bool)
deriving DecidableEq, Repr

/-- A bind oracle: the outcome of the asynchronous, fallible construction of a
given listener (`XTunnelListener::new(...).await`), abstracting the runtime
environment (free ports, privileges, valid paths). -/
def BindOracle : Type := Listener → Except String Unit

/-- What one arm of the local-to-remote dispatch `match` (lines 298-423) does:
spawn a task running `run_tunnel listener`; return the construction error via
`?` (aborting `connect`); spawn the stdio task and then exit the process after
the stdio supervision; `panic!` on a platform-invalid combination; or silently
skip a reverse variant found in the local list. -/
inductive LocalStep where
  | spawned (listener : Listener)
  | bindError (e : String)
  | stdioExit (listener : Listener)
  | panic (msg : String)
  | skip
deriving DecidableEq, Repr

/-- The local-to-remote dispatch arm for one endpoint (lines 298-423 of
`client_api.rs`), translated case by case from the `match` on
`tunnel.local_protocol`; the `#[cfg]`-selected arms are decided by `p`. -/
def dispatchLocal (p : Platform) (bind : BindOracle) (tunnel : LocalToRemote) : LocalStep :=
  match tunnel.local_protocol with
  | .Tcp proxy_protocol =>
    let server := Listener.TcpTunnelListener tunnel.locl tunnel.remote proxy_protocol
    match bind server with
    | .ok _ => .spawned server
    | .error e => .bindError e
  | .TProxyTcp =>
    if p.is_linux then
      let server := Listener.TproxyTcpTunnelListener tunnel.locl false
      match bind server with
      | .ok _ => .spawned server
      | .error e => .bindError e
    else .panic "Transparent proxy is not available for non Linux platform"
  | .Unix path proxy_protocol =>
    if p.is_unix then
      let server := Listener.UnixTunnelListener path tunnel.remote proxy_protocol
      match bind server with
      | .ok _ => .spawned server
      | .error e => .bindError e
    else .panic "Unix socket is not available for non Unix platform"
  | .TProxyUdp timeout =>
    if p.is_linux then
      let server := Listener.TproxyUdpTunnelListener tunnel.locl timeout
      match bind server with
      | .ok _ => .spawned server
      | .error e => .bindError e
    else .panic "Transparent proxy is not available for non Linux platform"
  | .Udp timeout =>
    let server := Listener.UdpTunnelListener tunnel.locl tunnel.remote timeout
    match bind server with
    | .ok _ => .spawned server
    | .error e => .bindError e
  | .Socks5 timeout credentials =>
    let server := Listener.Socks5TunnelListener tunnel.locl timeout credentials
    match bind server with
    | .ok _ => .spawned server
    | .error e => .bindError e
  | .HttpProxy timeout credentials proxy_protocol =>
    let server := Listener.HttpProxyTunnelListener tunnel.locl timeout credentials
      proxy_protocol
    match bind server with
    | .ok _ => .spawned server
    | .error e => .bindError e
  | .Stdio proxy_protocol =>
    let server := Listener.StdioTunnelListener tunnel.remote proxy_protocol
    match bind server with
    | .ok _ => .stdioExit server
    | .error e => .bindError e
  | .ReverseTcp => .skip
  | .ReverseUdp _ => .skip
  | .ReverseSocks5 _ _ => .skip
  | .ReverseUnix _ => .skip
  | .ReverseHttpProxy _ _ => .skip

/-- Holds (as `true`) on the two steps that let the dispatch loop continue to the next
endpoint: a spawned tunnel task or a silent skip. -/
def localStepOk : LocalStep → Bool
  | .spawned _ => true
  | .skip => true
  | _ => false

/-- How the `connect` dispatch core ends: the loops ran to completion and
`connect` returns `Ok(())`; a listener construction error was returned via `?`;
the process was exited by the stdio supervision; or a `panic!` unwound. -/
inductive LoopOutcome where
  | completed
  | failed (e : String)
  | exited
  | panicked (msg : String)
deriving DecidableEq, Repr

/-- One spawned tunnel task: a reverse task running
`run_reverse_tunnel remote connector`, or a forward task running
`run_tunnel listener`. -/
inductive TunnelTask where
  | reverse (remote : RemoteAddr) (connector : Connector)
  | forward (listener : Listener)
deriving DecidableEq, Repr

/-- The remote-to-local loop (lines 147-293): dispatch each endpoint in order,
collecting the spawned reverse tasks; a `panic!` arm aborts the loop (and the
whole of `connect`) at that endpoint. -/
def runReverseLoop (cfg : WsClientConfig) : List LocalToRemote → List TunnelTask × Option String
  | [] => ([], none)
  | tunnel :: rest =>
    match dispatchReverse cfg tunnel with
    | .spawn remote connector =>
      let r := runReverseLoop cfg rest
      (.reverse remote connector :: r.1, r.2)
    | .skip => runReverseLoop cfg rest
    | .panic msg => ([], some msg)

/-- The local-to-remote loop (lines 295-424): dispatch each endpoint in order,
collecting the spawned listeners; a construction error aborts the loop via `?`,
a `panic!` unwinds, and the stdio arm spawns its task and then exits the
process, so nothing after it runs. -/
def runLocalLoop (p : Platform) (bind : BindOracle) :
    List LocalToRemote → List Listener × LoopOutcome
  | [] => ([], .completed)
  | tunnel :: rest =>
    match dispatchLocal p bind tunnel with
    | .spawned server =>
      let r := runLocalLoop p bind rest
      (server :: r.1, r.2)
    | .skip => runLocalLoop p bind rest
    | .bindError e => ([], .failed e)
    | .stdioExit server => ([server], .exited)
    | .panic msg => ([], .panicked msg)

/-- The dispatch core of `connect` (lines 147-425), after the transport client
has been constructed: the remote-to-local loop runs first, then the
local-to-remote loop; the spawned tasks of both are collected in order. -/
def connectTunnels (p : Platform) (bind : BindOracle) (cfg : WsClientConfig)
    (remotes locals : List LocalToRemote) : List TunnelTask × LoopOutcome :=
  match runReverseLoop cfg remotes with
  | (rtasks, some msg) => (rtasks, .panicked msg)
  | (rtasks, none) =>
    let r := runLocalLoop p bind locals
    (rtasks ++ r.1.map .forward, r.2)

/-- The stdio supervision (lines 409-416): `select!` on the stdio bridge
reporting closure versus `ctrl_c`, then a one-second sleep, then
`std::process::exit(0)`.  Given the instants at which each of the two events
would fire, returns the instant of process exit and the exit code. -/
def stdioSupervise (closedAt ctrlcAt : Nat) : Nat × Nat :=
  (min closedAt ctrlcAt + 1, 0)

/-- An observable effect of a spawned tunnel task's body. -/
inductive TaskEffect where
  | log (msg : String)
  | exit_process (code : Nat)
deriving DecidableEq, Repr

/-- The body wrapped around every spawned tunnel (lines 166-168, 306-310 and
the analogous arms): `if let Err(err) = client.run_...(...).await` log the
error, else end silently.  `result` is the outcome of the `run_tunnel` /
`run_reverse_tunnel` call. -/
def taskBody : Except String Unit → List TaskEffect
  | .error err => [.log err]
  | .ok _ => []

/-- The effects of a list of spawned tasks, given an oracle assigning each task
the runtime result of its tunnel. -/
def runTasks (oracle : TunnelTask → Except String Unit) (tasks : List TunnelTask) :
    List (List TaskEffect) :=
  tasks.map (fun t => taskBody (oracle t))

/-- Holds (as `true`) exactly on the forward `Unix` variant, the one protocol whose
appearance in the remote-to-local list makes the dispatch `panic!`. -/
def LocalProtocol.is_unix_forward : LocalProtocol → Bool
  | .Unix _ _ => true
  | _ => false

/-- A sample transport-client configuration, used to instantiate the dispatch
theorems on concrete inputs. -/
def wcfg : WsClientConfig :=
  { remote_addr :=
      { scheme := .Ws, host := Host.Domain "example.com", port := 80, tls := none }
    socket_so_mark := none
    http_upgrade_path_pfx := "v1"
    http_upgrade_credentials := none
    http_headers := []
    http_headers_file := none
    http_header_host := "example.com"
    timeout_connect := { secs := 10, nanos := 0 }
    websocket_ping_frequency := some { secs := 30, nanos := 0 }
    websocket_mask_frame := false }

/-- A bind oracle under which every listener construction succeeds. -/
def okBind : BindOracle := fun _ => Except.ok ()

/-- A sample remote-initiated reverse-TCP endpoint. -/
def revT : LocalToRemote :=
  { local_protocol := .ReverseTcp
    locl := { is_ipv4 := true, ip := "127.0.0.1", port := 8080 }
    remote := (Host.Domain "target.example", 443) }

/-- A sample remote-initiated endpoint carrying the forward `Stdio` variant. -/
def stdioRevT : LocalToRemote :=
  { local_protocol := .Stdio false
    locl := { is_ipv4 := true, ip := "127.0.0.1", port := 8080 }
    remote := (Host.Domain "target.example", 443) }

/-- A sample remote-initiated endpoint carrying the forward `Unix` variant. -/
def unixRevT : LocalToRemote :=
  { local_protocol := .Unix "/tmp/wstunnel.sock" false
    locl := { is_ipv4 := true, ip := "127.0.0.1", port := 8080 }
    remote := (Host.Domain "target.example", 443) }

/-- A sample local-initiated TCP endpoint (bind port 8080). -/
def exTcpA : LocalToRemote :=
  { local_protocol := .Tcp false
    locl := { is_ipv4 := true, ip := "127.0.0.1", port := 8080 }
    remote := (Host.Domain "a.example", 80) }

/-- A second sample local-initiated TCP endpoint (bind port 9090). -/
def exTcpB : LocalToRemote :=
  { local_protocol := .Tcp false
    locl := { is_ipv4 := true, ip := "127.0.0.1", port := 9090 }
    remote := (Host.Domain "b.example", 80) }

/-- A sample local-initiated stdio endpoint. -/
def stdioT : LocalToRemote :=
  { local_protocol := .Stdio false
    locl := { is_ipv4 := true, ip := "127.0.0.1", port := 0 }
    remote := (Host.Domain "ssh.example", 22) }

/-- A bind oracle under which exactly `exTcpA`'s listener fails to construct
(its bind address is already in use). -/
def c2_bind : BindOracle := fun l =>
  if l = Listener.TcpTunnelListener exTcpA.locl exTcpA.remote false then
    Except.error "address already in use"
  else Except.ok ()

/-- Claim C1: for every `RemoteInitiated` endpoint descriptor, dispatch selects
exactly one connector and runs a reverse tunnel per the dispatch table: a
`ReverseTcp` endpoint gets a TCP connector aimed at the descriptor's remote
(host, port); a `ReverseUdp` endpoint gets a UDP connector and the reverse
tunnel's `RemoteAddr` carries the endpoint's idle timeout; a `ReverseSocks5`
endpoint gets a SOCKS5 connector; a `ReverseHttpProxy` endpoint gets a TCP
connector with the tunnel tagged as HTTP-proxy; a `ReverseUnix` endpoint gets
a TCP connector aimed at the descriptor's remote (host, port) with the tunnel
tagged as Unix-socket-backed using the given path. -/
theorem claim_C1_reverse_dispatch (cfg : WsClientConfig) (tunnel : LocalToRemote) :
    (tunnel.local_protocol = .ReverseTcp →
      dispatchReverse cfg tunnel = .spawn
        { protocol := .ReverseTcp
          host := (to_host_port tunnel.locl).1
          port := (to_host_port tunnel.locl).2 }
        (.TcpTunnelConnector tunnel.remote.1 tunnel.remote.2
          cfg.socket_so_mark cfg.timeout_connect))
  ∧ (∀ timeout, tunnel.local_protocol = .ReverseUdp timeout →
      dispatchReverse cfg tunnel = .spawn
        { protocol := .ReverseUdp timeout
          host := (to_host_port tunnel.locl).1
          port := (to_host_port tunnel.locl).2 }
        (.UdpTunnelConnector (to_host_port tunnel.locl).1 (to_host_port tunnel.locl).2
          cfg.socket_so_mark cfg.timeout_connect))
  ∧ (∀ timeout credentials, tunnel.local_protocol = .ReverseSocks5 timeout credentials →
      dispatchReverse cfg tunnel = .spawn
        { protocol := .ReverseSocks5 timeout credentials
          host := (to_host_port tunnel.locl).1
          port := (to_host_port tunnel.locl).2 }
        (.Socks5TunnelConnector cfg.socket_so_mark cfg.timeout_connect))
  ∧ (∀ timeout credentials, tunnel.local_protocol = .ReverseHttpProxy timeout credentials →
      dispatchReverse cfg tunnel = .spawn
        { protocol := .ReverseHttpProxy timeout credentials
          host := (to_host_port tunnel.locl).1
          port := (to_host_port tunnel.locl).2 }
        (.TcpTunnelConnector (to_host_port tunnel.locl).1 (to_host_port tunnel.locl).2
          cfg.socket_so_mark cfg.timeout_connect))
  ∧ (∀ path, tunnel.local_protocol = .ReverseUnix path →
      dispatchReverse cfg tunnel = .spawn
        { protocol := .ReverseUnix path
          host := (to_host_port tunnel.locl).1
          port := (to_host_port tunnel.locl).2 }
        (.TcpTunnelConnector tunnel.remote.1 tunnel.remote.2
          cfg.socket_so_mark cfg.timeout_connect)) := by
  refine ⟨fun h => ?_, fun timeout h => ?_, fun timeout credentials h => ?_,
    fun timeout credentials h => ?_, fun path h => ?_⟩ <;>
  simp [dispatchReverse, h]

/-- Witness for C1 at a concrete reverse-TCP endpoint. -/
theorem claim_C1_witness :
    dispatchReverse wcfg revT = .spawn
      { protocol := .ReverseTcp
        host := (to_host_port revT.locl).1
        port := (to_host_port revT.locl).2 }
      (.TcpTunnelConnector revT.remote.1 revT.remote.2
        wcfg.socket_so_mark wcfg.timeout_connect) :=
  (claim_C1_reverse_dispatch wcfg revT).1 rfl

/-- Claim C4: every structurally invalid direction/protocol combination is
rejected before any task is spawned for it — a `RemoteInitiated` endpoint
whose protocol is `Stdio`, `TProxyTcp` or `TProxyUdp` is a silent no-op (no
task spawned, no error), while a `RemoteInitiated` `Unix` endpoint is a
`panic!` (a fatal configuration error that aborts the whole dispatch with no
task spawned), on every build. -/
theorem claim_C4_invalid_combos (cfg : WsClientConfig) (tunnel : LocalToRemote) :
    (∀ pp, tunnel.local_protocol = .Stdio pp → dispatchReverse cfg tunnel = .skip)
  ∧ (tunnel.local_protocol = .TProxyTcp → dispatchReverse cfg tunnel = .skip)
  ∧ (∀ timeout, tunnel.local_protocol = .TProxyUdp timeout →
      dispatchReverse cfg tunnel = .skip)
  ∧ (∀ path pp, tunnel.local_protocol = .Unix path pp →
      dispatchReverse cfg tunnel = .panic "Invalid protocol for reverse tunnel"
      ∧ ∀ rest, runReverseLoop cfg (tunnel :: rest) =
          ([], some "Invalid protocol for reverse tunnel")) := by
  refine ⟨fun pp h => ?_, fun h => ?_, fun timeout h => ?_, fun path pp h => ⟨?_, fun rest => ?_⟩⟩ <;>
  simp [runReverseLoop, dispatchReverse, h]

/-- Witness for C4 at a concrete skipped endpoint and a concrete `Unix`
endpoint. -/
theorem claim_C4_witness :
    dispatchReverse wcfg stdioRevT = .skip
      ∧ dispatchReverse wcfg unixRevT = .panic "Invalid protocol for reverse tunnel" :=
  ⟨(claim_C4_invalid_combos wcfg stdioRevT).1 false rfl,
    ((claim_C4_invalid_combos wcfg unixRevT).2.2.2 "/tmp/wstunnel.sock" false rfl).1⟩

/-- Claim C9: the connector target differs by reverse-tunnel protocol — for a
`ReverseTcp` or `ReverseUnix` endpoint the outbound connector is aimed at the
descriptor's remote (host, port) pair, while for a `ReverseUdp` or
`ReverseHttpProxy` endpoint it is aimed at the host and port derived from the
descriptor's local address. -/
theorem claim_C9_connector_targets (cfg : WsClientConfig) (tunnel : LocalToRemote) :
    ((tunnel.local_protocol = .ReverseTcp
        ∨ (∃ path, tunnel.local_protocol = .ReverseUnix path)) →
      ∃ r c, dispatchReverse cfg tunnel = .spawn r c
        ∧ connectorTarget c = some (tunnel.remote.1, tunnel.remote.2))
  ∧ (((∃ timeout, tunnel.local_protocol = .ReverseUdp timeout)
        ∨ (∃ timeout credentials,
            tunnel.local_protocol = .ReverseHttpProxy timeout credentials)) →
      ∃ r c, dispatchReverse cfg tunnel = .spawn r c
        ∧ connectorTarget c = some (to_host_port tunnel.locl)) := by
  constructor
  · rintro (h | ⟨path, h⟩) <;> simp only [dispatchReverse, h] <;>
      exact ⟨_, _, rfl, by simp [connectorTarget]⟩
  · rintro (⟨timeout, h⟩ | ⟨timeout, credentials, h⟩) <;> simp only [dispatchReverse, h] <;>
      exact ⟨_, _, rfl, by simp [connectorTarget]⟩

/-- Witness for C9 at a concrete reverse-TCP endpoint. -/
theorem claim_C9_witness :
    ∃ r c, dispatchReverse wcfg revT = .spawn r c
      ∧ connectorTarget c = some (revT.remote.1, revT.remote.2) :=
  (claim_C9_connector_targets wcfg revT).1 (Or.inl rfl)

lemma dispatchLocal_skip_iff (p : Platform) (bind : BindOracle) (tunnel : LocalToRemote) :
    dispatchLocal p bind tunnel = .skip ↔ tunnel.local_protocol.is_reverse = true := by
  cases h : tunnel.local_protocol <;>
    simp only [dispatchLocal, h, LocalProtocol.is_reverse] <;>
    (try split) <;> (try split) <;> simp_all

lemma dispatchLocal_spawned_inv (p : Platform) (bind : BindOracle) (tunnel : LocalToRemote)
    (server : Listener) (h : dispatchLocal p bind tunnel = .spawned server) :
    tunnel.local_protocol.is_reverse = false := by
  cases hp : tunnel.local_protocol <;>
    simp only [dispatchLocal, hp, LocalProtocol.is_reverse] at h ⊢ <;>
    (try split at h) <;> (try split at h) <;> simp_all

lemma dispatchLocal_stdioExit_inv (p : Platform) (bind : BindOracle) (tunnel : LocalToRemote)
    (server : Listener) (h : dispatchLocal p bind tunnel = .stdioExit server) :
    ∃ pp, tunnel.local_protocol = .Stdio pp := by
  cases hp : tunnel.local_protocol <;>
    simp only [dispatchLocal, hp] at h <;>
    (try split at h) <;> (try split at h) <;> simp_all

/-- Claim C3: for a `LocalInitiated` `Stdio` endpoint, after spawning its tunnel
task the supervisor waits concurrently for whichever comes first of the stdio
bridge reporting closure or an interrupt signal, then sleeps a fixed
one-second grace period, then terminates the process with exit code 0; and a
process exit (`LoopOutcome.exited` / `LocalStep.stdioExit`) arises from no
other branch of the dispatch core. -/
theorem claim_C3_stdio_exit (p : Platform) (bind : BindOracle) (tunnel : LocalToRemote) :
    (∀ pp, tunnel.local_protocol = .Stdio pp →
      bind (Listener.StdioTunnelListener tunnel.remote pp) = .ok () →
      dispatchLocal p bind tunnel
        = .stdioExit (Listener.StdioTunnelListener tunnel.remote pp))
  ∧ (∀ server, dispatchLocal p bind tunnel = .stdioExit server →
      ∃ pp, tunnel.local_protocol = .Stdio pp)
  ∧ (∀ tunnels : List LocalToRemote, (runLocalLoop p bind tunnels).2 = .exited →
      ∃ u ∈ tunnels, ∃ pp, u.local_protocol = LocalProtocol.Stdio pp)
  ∧ (∀ closedAt ctrlcAt, stdioSupervise closedAt ctrlcAt = (min closedAt ctrlcAt + 1, 0)) := by
  refine ⟨fun pp h hb => by simp [dispatchLocal, h, hb],
    fun server h => dispatchLocal_stdioExit_inv p bind tunnel server h,
    fun tunnels => ?_, fun closedAt ctrlcAt => rfl⟩
  induction tunnels with
  | nil => simp [runLocalLoop]
  | cons t rest ih =>
    intro h
    cases hd : dispatchLocal p bind t <;> simp [runLocalLoop, hd] at h
    case spawned server =>
      obtain ⟨u, hu, pp, hpp⟩ := ih h
      exact ⟨u, List.mem_cons_of_mem _ hu, pp, hpp⟩
    case skip =>
      obtain ⟨u, hu, pp, hpp⟩ := ih h
      exact ⟨u, List.mem_cons_of_mem _ hu, pp, hpp⟩
    case stdioExit server =>
      obtain ⟨pp, hpp⟩ := dispatchLocal_stdioExit_inv p bind t server hd
      exact ⟨t, List.mem_cons_self _ _, pp, hpp⟩

/-- Witness for C3 at a concrete stdio endpoint on Linux with a succeeding bind
oracle, and the supervision evaluated at concrete event instants. -/
theorem claim_C3_witness :
    dispatchLocal Platform.linux okBind stdioT
        = LocalStep.stdioExit (Listener.StdioTunnelListener stdioT.remote false)
      ∧ stdioSupervise 5 3 = (min 5 3 + 1, 0) :=
  ⟨(claim_C3_stdio_exit Platform.linux okBind stdioT).1 false rfl rfl,
    (claim_C3_stdio_exit Platform.linux okBind stdioT).2.2.2 5 3⟩

/-- Counterexample to C2 as stated: under a bind oracle where only `exTcpA`'s
listener construction fails, running the local loop on `[exTcpA, exTcpB]`
spawns nothing — the endpoint after the failing one is not dispatched — even
though the same oracle dispatches `exTcpB` when it is not preceded by the
failing endpoint. -/
theorem claim_C2_counterexample :
    (runLocalLoop Platform.linux c2_bind [exTcpA, exTcpB]).1 = []
      ∧ (runLocalLoop Platform.linux c2_bind [exTcpB]).1
        = [Listener.TcpTunnelListener exTcpB.locl exTcpB.remote false] := by
  decide

/-- Claim C2 as amended: a listener-construction failure for one
`LocalInitiated` endpoint aborts the local dispatch loop — the endpoints
before the failing one have already been dispatched and keep their tasks, the
error propagates to the caller, and the endpoints after the failing one are
not dispatched. -/
theorem claim_C2_amended (p : Platform) (bind : BindOracle)
    (pre post : List LocalToRemote) (tunnel : LocalToRemote) (e : String)
    (hpre : ∀ u ∈ pre, localStepOk (dispatchLocal p bind u) = true)
    (ht : dispatchLocal p bind tunnel = .bindError e) :
    runLocalLoop p bind (pre ++ tunnel :: post) =
      ((runLocalLoop p bind pre).1, .failed e) := by
  induction pre with
  | nil => simp [runLocalLoop, ht]
  | cons u rest ih =>
    have hu := hpre u (List.mem_cons_self _ _)
    have hrest : ∀ v ∈ rest, localStepOk (dispatchLocal p bind v) = true :=
      fun v hv => hpre v (List.mem_cons_of_mem _ hv)
    cases hd : dispatchLocal p bind u <;> simp [hd, localStepOk] at hu <;>
      simp [runLocalLoop, hd, ih hrest]

/-- Witness for the amended C2: with the failing endpoint second, the first is
dispatched, the loop fails with the bind error, and nothing after the failure
is dispatched. -/
theorem claim_C2_witness :
    runLocalLoop Platform.linux c2_bind [exTcpB, exTcpA] =
      ((runLocalLoop Platform.linux c2_bind [exTcpB]).1,
        LoopOutcome.failed "address already in use") :=
  claim_C2_amended Platform.linux c2_bind [exTcpB] [] exTcpA
    "address already in use" (by decide) (by decide)

lemma runReverseLoop_no_unix (cfg : WsClientConfig) (remotes : List LocalToRemote)
    (h : ∀ t ∈ remotes, t.local_protocol.is_unix_forward = false) :
    (runReverseLoop cfg remotes).2 = none ∧
    (runReverseLoop cfg remotes).1.length
      = remotes.countP (fun t => t.local_protocol.is_reverse) := by
  induction remotes with
  | nil => simp [runReverseLoop]
  | cons t rest ih =>
    have ht := h t (List.mem_cons_self _ _)
    obtain ⟨ih1, ih2⟩ := ih (fun v hv => h v (List.mem_cons_of_mem _ hv))
    cases hp : t.local_protocol <;>
      simp [runReverseLoop, dispatchReverse, hp, List.countP_cons,
        LocalProtocol.is_reverse, ih1, ih2] <;>
      simp [hp, LocalProtocol.is_unix_forward] at ht

lemma runLocalLoop_all_ok (p : Platform) (bind : BindOracle) (locals : List LocalToRemote)
    (h : ∀ t ∈ locals, localStepOk (dispatchLocal p bind t) = true) :
    (runLocalLoop p bind locals).2 = .completed ∧
    (runLocalLoop p bind locals).1.length
      = locals.countP (fun t => !t.local_protocol.is_reverse) := by
  induction locals with
  | nil => simp [runLocalLoop]
  | cons t rest ih =>
    have ht := h t (List.mem_cons_self _ _)
    obtain ⟨ih1, ih2⟩ := ih (fun v hv => h v (List.mem_cons_of_mem _ hv))
    cases hd : dispatchLocal p bind t with
    | spawned server =>
      have hrev := dispatchLocal_spawned_inv p bind t server hd
      simp [runLocalLoop, hd, List.countP_cons, hrev, ih1, ih2]
    | skip =>
      have hrev := (dispatchLocal_skip_iff p bind t).mp hd
      simp [runLocalLoop, hd, List.countP_cons, hrev, ih1, ih2]
    | bindError e => simp [hd, localStepOk] at ht
    | stdioExit server => simp [hd, localStepOk] at ht
    | panic msg => simp [hd, localStepOk] at ht

/-- Claim C5: given both endpoint lists and a constructed transport config,
the dispatch core spawns exactly one concurrent task per valid endpoint (a
reverse-protocol endpoint in the remote list, a forward-protocol endpoint in
the local list) and finishes with `connect` returning, provided no endpoint
panics, fails its bind, or is a stdio endpoint (the stdio case being the
claim's own stated exception); tunnel results are never consulted, so nothing
waits for a tunnel to finish. -/
theorem claim_C5_one_task_per_endpoint (p : Platform) (bind : BindOracle)
    (cfg : WsClientConfig) (remotes locals : List LocalToRemote)
    (hrem : ∀ t ∈ remotes, t.local_protocol.is_unix_forward = false)
    (hloc : ∀ t ∈ locals, localStepOk (dispatchLocal p bind t) = true) :
    (connectTunnels p bind cfg remotes locals).2 = .completed ∧
    (connectTunnels p bind cfg remotes locals).1.length
      = remotes.countP (fun t => t.local_protocol.is_reverse)
        + locals.countP (fun t => !t.local_protocol.is_reverse) := by
  obtain ⟨hr2, hr1⟩ := runReverseLoop_no_unix cfg remotes hrem
  obtain ⟨hl2, hl1⟩ := runLocalLoop_all_ok p bind locals hloc
  rcases hrr : runReverseLoop cfg remotes with ⟨rtasks, ropt⟩
  rw [hrr] at hr2 hr1
  simp at hr2 hr1
  subst hr2
  simp only [connectTunnels, hrr]
  simp [hl2, hl1, hr1]

/-- Witness for C5: one concrete reverse endpoint and one concrete local TCP
endpoint under an always-succeeding bind oracle. -/
theorem claim_C5_witness :
    (connectTunnels Platform.linux okBind wcfg [revT] [exTcpB]).2 = LoopOutcome.completed ∧
    (connectTunnels Platform.linux okBind wcfg [revT] [exTcpB]).1.length
      = [revT].countP (fun t => t.local_protocol.is_reverse)
        + [exTcpB].countP (fun t => !t.local_protocol.is_reverse) :=
  claim_C5_one_task_per_endpoint Platform.linux okBind wcfg [revT] [exTcpB]
    (by decide) (by decide)

/-- Claim C6: the constructed transport configuration carries no TLS
configuration when the remote URL scheme parses to `Ws` or `Http`, and carries
one when it parses to `Wss` or `Https`; in the TLS case the connector is
built with SNI enabled exactly when the SNI-disable flag is not set. -/
theorem claim_C6_tls_scheme (args : Client) (cfg : WsClientConfig) (s : TransportScheme)
    (hs : TransportScheme.from_str args.remote_addr.scheme = some s)
    (hcfg : mk_client_config args = some cfg) :
    ((s = .Ws ∨ s = .Http) → cfg.remote_addr.tls = none)
  ∧ ((s = .Wss ∨ s = .Https) → ∃ tc, cfg.remote_addr.tls = some tc
      ∧ (tc.tls_connector.enable_sni = true ↔ args.tls_sni_disable = false)) := by
  cases hh : args.remote_addr.host with
  | none => simp [mk_client_config, hs, hh] at hcfg
  | some rhost =>
    cases hp : args.remote_addr.port_or_known_default with
    | none => simp [mk_client_config, hs, hh, hp] at hcfg
    | some rport =>
      simp [mk_client_config, hs, hh, hp] at hcfg
      subst hcfg
      constructor
      · rintro (rfl | rfl) <;> simp [mk_tls]
      · rintro (rfl | rfl) <;>
          exact ⟨_, rfl, by cases hd : args.tls_sni_disable <;> simp [hd]⟩

/-- A sample client argument set whose remote URL has scheme `wss`. -/
def c6_args : Client :=
  { local_to_remote := []
    remote_to_local := []
    socket_so_mark := none
    tls_sni_override := none
    tls_sni_disable := false
    tls_verify_certificate := false
    http_upgrade_path_pfx := "v1"
    http_upgrade_credentials := none
    websocket_ping_frequency_sec := none
    websocket_mask_frame := false
    http_headers := []
    http_headers_file := none
    remote_addr := { scheme := "wss", host := some (Host.Domain "example.com"), port := none }
    tls_certificate := none
    tls_private_key := none }

/-- Witness for C6 at the concrete `wss://example.com` argument set. -/
theorem claim_C6_witness :
    ∃ cfg, mk_client_config c6_args = some cfg
      ∧ (((TransportScheme.Wss = .Ws ∨ TransportScheme.Wss = .Http) →
            cfg.remote_addr.tls = none)
        ∧ ((TransportScheme.Wss = .Wss ∨ TransportScheme.Wss = .Https) →
            ∃ tc, cfg.remote_addr.tls = some tc
              ∧ (tc.tls_connector.enable_sni = true ↔ c6_args.tls_sni_disable = false))) :=
  ⟨_, rfl, claim_C6_tls_scheme c6_args _ .Wss rfl rfl⟩

/-- Claim C7: when the custom header list contains an entry named `Host`, the
transport configuration's Host header value is taken from the (first) such
entry and the `Host` name is filtered out of the remaining outgoing header
list, so `Host` appears at most once in the final outgoing header set. -/
theorem claim_C7_host_header (args : Client) (cfg : WsClientConfig) (kv : String × String)
    (hfind : args.http_headers.find? (fun q => q.1 == HOST) = some kv)
    (hcfg : mk_client_config args = some cfg) :
    cfg.http_header_host = kv.2
  ∧ cfg.http_headers.countP (fun q => q.1 == HOST) = 0 := by
  cases hsc : TransportScheme.from_str args.remote_addr.scheme with
  | none => simp [mk_client_config, hsc] at hcfg
  | some s =>
    cases hh : args.remote_addr.host with
    | none => simp [mk_client_config, hsc, hh] at hcfg
    | some rhost =>
      cases hp : args.remote_addr.port_or_known_default with
      | none => simp [mk_client_config, hsc, hh, hp] at hcfg
      | some rport =>
        simp [mk_client_config, hsc, hh, hp] at hcfg
        subst hcfg
        refine ⟨by simp [hfind], ?_⟩
        refine List.countP_eq_zero.mpr ?_
        intro a ha
        rw [List.mem_filter] at ha
        simpa using ha.2

/-- A sample client argument set with an explicit `Host` header entry. -/
def c7_args : Client :=
  { local_to_remote := []
    remote_to_local := []
    socket_so_mark := none
    tls_sni_override := none
    tls_sni_disable := false
    tls_verify_certificate := false
    http_upgrade_path_pfx := "v1"
    http_upgrade_credentials := none
    websocket_ping_frequency_sec := none
    websocket_mask_frame := false
    http_headers := [("host", "override.example"), ("x-extra", "1")]
    http_headers_file := none
    remote_addr := { scheme := "ws", host := some (Host.Domain "example.com"), port := some 8080 }
    tls_certificate := none
    tls_private_key := none }

/-- Witness for C7 at the concrete argument set with an explicit Host entry. -/
theorem claim_C7_witness :
    ∃ cfg, mk_client_config c7_args = some cfg
      ∧ cfg.http_header_host = "override.example"
      ∧ cfg.http_headers.countP (fun q => q.1 == HOST) = 0 :=
  ⟨_, rfl, claim_C7_host_header c7_args _ ("host", "override.example") rfl rfl⟩

/-- Claim C10: the websocket ping frequency in the constructed transport
configuration is the user-supplied duration when one is given with a positive
whole-second count; `none` (pings disabled) when the supplied duration's
whole-second count is zero; and the default of 30 seconds when none is
supplied. -/
theorem claim_C10_ping_frequency (args : Client) (cfg : WsClientConfig)
    (hcfg : mk_client_config args = some cfg) :
    (∀ d, args.websocket_ping_frequency_sec = some d → 0 < d.as_secs →
      cfg.websocket_ping_frequency = some d)
  ∧ (∀ d, args.websocket_ping_frequency_sec = some d → d.as_secs = 0 →
      cfg.websocket_ping_frequency = none)
  ∧ (args.websocket_ping_frequency_sec = none →
      cfg.websocket_ping_frequency = some { secs := 30, nanos := 0 }) := by
  cases hsc : TransportScheme.from_str args.remote_addr.scheme with
  | none => simp [mk_client_config, hsc] at hcfg
  | some s =>
    cases hh : args.remote_addr.host with
    | none => simp [mk_client_config, hsc, hh] at hcfg
    | some rhost =>
      cases hp : args.remote_addr.port_or_known_default with
      | none => simp [mk_client_config, hsc, hh, hp] at hcfg
      | some rport =>
        simp [mk_client_config, hsc, hh, hp] at hcfg
        subst hcfg
        refine ⟨fun d hd hpos => ?_, fun d hd hzero => ?_, fun hnone => ?_⟩
        · have hpos' : d.secs ≠ 0 := Nat.pos_iff_ne_zero.mp hpos
          simp [hd, Option.or, Option.filter, Duration.as_secs, hpos']
        · have hzero' : d.secs = 0 := hzero
          simp [hd, Option.or, Option.filter, Duration.as_secs, hzero']
        · simp [hnone, Option.or, Option.filter, Duration.as_secs]

/-- A sample client argument set with a supplied ping duration of 25 seconds. -/
def c10_args_pos : Client :=
  { c6_args with websocket_ping_frequency_sec := some { secs := 25, nanos := 0 } }

/-- A sample client argument set with a supplied ping duration whose
whole-second count is zero. -/
def c10_args_zero : Client :=
  { c6_args with websocket_ping_frequency_sec := some { secs := 0, nanos := 500 } }

/-- Witness for C10: the three branches at concrete argument sets (25 s
supplied, a zero-second duration supplied, nothing supplied). -/
theorem claim_C10_witness :
    (∃ cfg, mk_client_config c10_args_pos = some cfg
      ∧ cfg.websocket_ping_frequency = some { secs := 25, nanos := 0 })
  ∧ (∃ cfg, mk_client_config c10_args_zero = some cfg
      ∧ cfg.websocket_ping_frequency = none)
  ∧ (∃ cfg, mk_client_config c6_args = some cfg
      ∧ cfg.websocket_ping_frequency = some { secs := 30, nanos := 0 }) :=
  ⟨⟨_, rfl, (claim_C10_ping_frequency c10_args_pos _ rfl).1 _ rfl (by decide)⟩,
    ⟨_, rfl, (claim_C10_ping_frequency c10_args_zero _ rfl).2.1 _ rfl rfl⟩,
    ⟨_, rfl, (claim_C10_ping_frequency c6_args _ rfl).2.2 rfl⟩⟩

/-- Claim C8: any error returned by the run-forward-tunnel or
run-reverse-tunnel operation is only logged inside the owning task — the task
body's only possible effect is a log entry (never a process exit, never a
propagated error value) — and the effects of every other task are unchanged
when one task's tunnel result changes. -/
theorem claim_C8_task_errors_logged :
    (∀ result : Except String Unit, ∀ e ∈ taskBody result, ∃ msg, e = TaskEffect.log msg)
  ∧ (∀ (oracle1 oracle2 : TunnelTask → Except String Unit)
      (tasks : List TunnelTask) (i : Nat) (t : TunnelTask),
      tasks[i]? = some t → oracle1 t = oracle2 t →
      (runTasks oracle1 tasks)[i]? = (runTasks oracle2 tasks)[i]?) := by
  constructor
  · intro result e he
    cases result with
    | ok u => simp [taskBody] at he
    | error err =>
      simp [taskBody] at he
      exact ⟨err, he⟩
  · intro oracle1 oracle2 tasks i t ht ho
    simp [runTasks, List.getElem?_map, ht, ho]

/-- Witness for C8: a concrete failed tunnel result produces only a log entry,
and a concrete task's effects agree under two oracles that agree on it. -/
theorem claim_C8_witness :
    (∃ msg, TaskEffect.log "tunnel failed" = TaskEffect.log msg)
  ∧ (runTasks (fun _ => Except.error "boom") [TunnelTask.forward
        (Listener.StdioTunnelListener (Host.Domain "a.example", 1) false)])[0]?
      = (runTasks (fun _ => Except.error "boom") [TunnelTask.forward
        (Listener.StdioTunnelListener (Host.Domain "a.example", 1) false)])[0]? :=
  ⟨claim_C8_task_errors_logged.1 (Except.error "tunnel failed")
      (TaskEffect.log "tunnel failed") (by simp [taskBody]),
    claim_C8_task_errors_logged.2 (fun _ => Except.error "boom")
      (fun _ => Except.error "boom")
      [TunnelTask.forward (Listener.StdioTunnelListener (Host.Domain "a.example", 1) false)]
      0 (TunnelTask.forward (Listener.StdioTunnelListener (Host.Domain "a.example", 1) false))
      rfl rfl⟩

end Wst
